import Mathlib

/-!
Verification of the flocker EBS attachment subsystem
(`flocker/node/agents/ebs.py`) against its specification.

The module under verification is exercised by
`flocker/node/agents/test/test_ebs.py`; the module itself is not part of
the provided sources, so every operation below is modelled from the
specification (sections 4.1 to 4.6 and 7 of the spec), faithful to the
interface exercised by the tests.  Device paths and other byte strings
are embedded as `List Char`; the fallible Python functions become
`Except` / `Option`-valued Lean functions; diagnostic (eliot) events are
returned explicitly; time is discrete and the host device inventory is a
trace, a function from poll tick to the device list observed then.
-/

/-- A device path or other byte string, embedded structurally. -/
abbrev Bytes := List Char

/-- The taxonomy of error conditions of the subsystem (spec section 7).
`cloudError` stands for an arbitrary provider-defined condition raised
by the attach capability, carrying its payload unchanged. -/
inductive EBSError where
  | invalidDeviceName (path : Bytes)
  | noAvailableDevice
  | deviceNeverAppeared
  | attachedUnexpectedDevice (requested : Bytes) (discovered : Option Bytes)
  | cloudError (payload : Bytes)
deriving DecidableEq

/-- Structured diagnostic (eliot log) events emitted by the subsystem:
`NO_NEW_DEVICE_IN_OS` when the poller times out, and
`INVALID_FLOCKER_CLUSTER_ID` naming the offending tag value. -/
inductive DiagEvent where
  | noNewDeviceInOS
  | invalidFlockerClusterId (value : Bytes)
deriving DecidableEq

/-- A lowercase ASCII letter, the alphabet of device slot suffixes. -/
def isLowerAlpha (c : Char) : Bool :=
  decide ('a' ≤ c) && decide (c ≤ 'z')

/-- Modelled from the spec: `expected_device` (section 4.3, Device Path
Translator).  A requested path of the form `/dev/sd<letters>` (a
non-empty lowercase-letter suffix) is rewritten to `/dev/xvd<letters>`,
the name the hypervisor will actually expose; any path not under the
device-file root `/dev`, or whose suffix is not of the recognized `sdX`
family, fails with the precise `InvalidDeviceName` condition. -/
def _expected_device (requested : Bytes) : Except EBSError Bytes :=
  if requested.take 7 = "/dev/sd".data ∧ requested.drop 7 ≠ [] ∧
      ∀ c ∈ requested.drop 7, isLowerAlpha c = true then
    .ok ("/dev/xvd".data ++ requested.drop 7)
  else
    .error (.invalidDeviceName requested)

/-- The inverse direction of the translation table: strip the
`/dev/xvd` prefix of a translated path, recovering the letter suffix. -/
def inverseExpected (translated : Bytes) : Bytes := translated.drop 8

theorem expected_device_ok (requested result : Bytes)
    (h : _expected_device requested = .ok result) :
    requested.take 7 = "/dev/sd".data ∧
      result = "/dev/xvd".data ++ requested.drop 7 := by
  unfold _expected_device at h
  by_cases hc : requested.take 7 = "/dev/sd".data ∧ requested.drop 7 ≠ [] ∧
      ∀ c ∈ requested.drop 7, isLowerAlpha c = true
  · rw [if_pos hc] at h
    exact ⟨hc.1, ((Except.ok.injEq _ _).mp h).symm⟩
  · rw [if_neg hc] at h
    exact absurd h (by simp)

theorem expected_device_accepts (s : Bytes) (hne : s ≠ [])
    (hall : ∀ c ∈ s, isLowerAlpha c = true) :
    _expected_device ("/dev/sd".data ++ s) = .ok ("/dev/xvd".data ++ s) := by
  have hdrop : ("/dev/sd".data ++ s).drop 7 = s := by simp
  have htake : ("/dev/sd".data ++ s).take 7 = "/dev/sd".data := by simp
  unfold _expected_device
  rw [if_pos ⟨htake, by rw [hdrop]; exact hne, by rw [hdrop]; exact hall⟩, hdrop]

/-- C4: for every requested device path of the form `/dev/sd` followed by a
non-empty string of lowercase letters, `_expected_device` returns the path
with the `sd` prefix replaced by `xvd`; the mapping is injective on the
accepted inputs, and inverse-mapping the translated path recovers the
original letter suffix. -/
theorem C4_expected_device_round_trip :
    (∀ s : Bytes, s ≠ [] → (∀ c ∈ s, isLowerAlpha c = true) →
      _expected_device ("/dev/sd".data ++ s) = .ok ("/dev/xvd".data ++ s) ∧
      inverseExpected ("/dev/xvd".data ++ s) = s) ∧
    (∀ p₁ p₂ d : Bytes,
      _expected_device p₁ = .ok d → _expected_device p₂ = .ok d → p₁ = p₂) := by
  constructor
  · intro s hne hall
    refine ⟨expected_device_accepts s hne hall, ?_⟩
    unfold inverseExpected
    simp
  · intro p₁ p₂ d h₁ h₂
    obtain ⟨ht₁, hd₁⟩ := expected_device_ok p₁ d h₁
    obtain ⟨ht₂, hd₂⟩ := expected_device_ok p₂ d h₂
    have hdrop : p₁.drop 7 = p₂.drop 7 :=
      List.append_cancel_left (hd₁.symm.trans hd₂)
    calc p₁ = p₁.take 7 ++ p₁.drop 7 := (List.take_append_drop 7 p₁).symm
      _ = p₂.take 7 ++ p₂.drop 7 := by rw [ht₁, ht₂, hdrop]
      _ = p₂ := List.take_append_drop 7 p₂

theorem C4_expected_device_round_trip_witness :
    _expected_device ("/dev/sd".data ++ "j".data) =
        .ok ("/dev/xvd".data ++ "j".data) ∧
      inverseExpected ("/dev/xvd".data ++ "j".data) = "j".data :=
  C4_expected_device_round_trip.1 "j".data (by decide) (by decide)

/-- C5: `_expected_device` fails with the precise `InvalidDeviceName`
condition on every path not under the device-file root `/dev`, and on every
path under `/dev` whose suffix is not of the recognized `sdX` family. -/
theorem C5_expected_device_rejects :
    (∀ p : Bytes, p.take 5 ≠ "/dev/".data →
      _expected_device p = .error (.invalidDeviceName p)) ∧
    (∀ s : Bytes,
      ¬ (s.take 2 = "sd".data ∧ s.drop 2 ≠ [] ∧
          ∀ c ∈ s.drop 2, isLowerAlpha c = true) →
      _expected_device ("/dev/".data ++ s) =
        .error (.invalidDeviceName ("/dev/".data ++ s))) := by
  constructor
  · intro p hp
    have hguard : ¬ (p.take 7 = "/dev/sd".data ∧ p.drop 7 ≠ [] ∧
        ∀ c ∈ p.drop 7, isLowerAlpha c = true) := by
      intro hc
      apply hp
      have h75 : (p.take 7).take 5 = p.take 5 := by
        rw [List.take_take]
        norm_num
      rw [← h75, hc.1]
      decide
    unfold _expected_device
    rw [if_neg hguard]
  · intro s hs
    have h7 : "/dev/".data.length + 2 = 7 := by decide
    have htake : ("/dev/".data ++ s).take 7 = "/dev/".data ++ s.take 2 := by
      rw [← h7]
      exact List.take_append 2
    have hdrop : ("/dev/".data ++ s).drop 7 = s.drop 2 := by
      rw [← h7]
      exact List.drop_append 2
    have hguard : ¬ (("/dev/".data ++ s).take 7 = "/dev/sd".data ∧
        ("/dev/".data ++ s).drop 7 ≠ [] ∧
        ∀ c ∈ ("/dev/".data ++ s).drop 7, isLowerAlpha c = true) := by
      intro hc
      apply hs
      obtain ⟨h1, h2, h3⟩ := hc
      rw [htake] at h1
      rw [hdrop] at h2 h3
      have hsd : "/dev/sd".data = "/dev/".data ++ "sd".data := by decide
      rw [hsd] at h1
      exact ⟨List.append_cancel_left h1, h2, h3⟩
    unfold _expected_device
    rw [if_neg hguard]

theorem C5_expected_device_rejects_witness :
    _expected_device "/sys/block/sda".data =
        .error (.invalidDeviceName "/sys/block/sda".data) ∧
      _expected_device ("/dev/".data ++ "hda".data) =
        .error (.invalidDeviceName ("/dev/".data ++ "hda".data)) :=
  ⟨C5_expected_device_rejects.1 "/sys/block/sda".data (by decide),
   C5_expected_device_rejects.2 "hda".data (by decide)⟩

/-- The fixed ordered alphabet of device slot letters, `a` to `z`. -/
def alphabet : List Char := "abcdefghijklmnopqrstuvwxyz".data

/-- Modelled from the spec: `select_free_device` (section 4.2, Device Slot
Allocator).  Scans the fixed ordered alphabet `a` to `z` for the lowest
letter whose device name `sd<letter>` is not in the allocated set, and
returns the canonical path `/dev/sd<letter>`; when all 26 letters are
allocated it signals the `NoAvailableDevice` condition. -/
def _select_free_device (existing : List Bytes) : Except EBSError Bytes :=
  match alphabet.find? (fun c => decide (("sd".data ++ [c]) ∉ existing)) with
  | some c => .ok ("/dev/sd".data ++ [c])
  | none => .error .noAvailableDevice

/-- C6: `_select_free_device` either returns a canonical path
`/dev/sd<letter>` whose letter is not allocated, or signals
`NoAvailableDevice`, and it signals `NoAvailableDevice` exactly when all
26 letters are already allocated. -/
theorem C6_select_free_device_spec (existing : List Bytes) :
    ((∃ c, c ∈ alphabet ∧ ("sd".data ++ [c]) ∉ existing ∧
        _select_free_device existing = .ok ("/dev/sd".data ++ [c])) ∨
      _select_free_device existing = .error .noAvailableDevice) ∧
    (_select_free_device existing = .error .noAvailableDevice ↔
      ∀ c ∈ alphabet, ("sd".data ++ [c]) ∈ existing) := by
  unfold _select_free_device
  cases hf : alphabet.find? (fun c => decide (("sd".data ++ [c]) ∉ existing)) with
  | none =>
    refine ⟨Or.inr rfl, ⟨fun _ c hc => ?_, fun _ => rfl⟩⟩
    have hall := List.find?_eq_none.mp hf c hc
    simpa using hall
  | some c =>
    have hmem : c ∈ alphabet := List.mem_of_find?_eq_some hf
    have hpred := List.find?_some hf
    have hnotin : ("sd".data ++ [c]) ∉ existing := by simpa using hpred
    refine ⟨Or.inl ⟨c, hmem, hnotin, rfl⟩, ⟨fun h => by simp at h, fun h => ?_⟩⟩
    exact absurd (h c hmem) hnotin

theorem C6_select_free_device_spec_witness :
    ((∃ c, c ∈ alphabet ∧ ("sd".data ++ [c]) ∉ ["sda".data] ∧
        _select_free_device ["sda".data] = .ok ("/dev/sd".data ++ [c])) ∨
      _select_free_device ["sda".data] = .error .noAvailableDevice) ∧
    (_select_free_device ["sda".data] = .error .noAvailableDevice ↔
      ∀ c ∈ alphabet, ("sd".data ++ [c]) ∈ ["sda".data]) :=
  C6_select_free_device_spec ["sda".data]

/-- The well-known cluster ownership tag key. -/
def CLUSTER_ID_LABEL : Bytes := "flocker-cluster-id".data

/-- A hexadecimal digit of a canonical (lowercase) UUID string. -/
def isHexDigit (c : Char) : Bool :=
  (decide ('0' ≤ c) && decide (c ≤ '9')) || (decide ('a' ≤ c) && decide (c ≤ 'f'))

/-- A canonical UUID string: 36 characters, hyphens at positions
8, 13, 18 and 23, hexadecimal digits everywhere else. -/
def isCanonicalUUID (s : Bytes) : Bool :=
  s.length == 36 &&
    (List.range 36).all (fun i =>
      if i == 8 || i == 13 || i == 18 || i == 23 then s.getD i ' ' == '-'
      else isHexDigit (s.getD i ' '))

/-- Modelled from the spec: UUID parsing of a cluster tag value.  A value
parses exactly when it is a canonical UUID string; the parsed UUID is
represented by its canonical string. -/
def parseUUID (s : Bytes) : Option Bytes :=
  if isCanonicalUUID s then some s else none

/-- A cloud volume as seen by the ownership check: its provider tag set,
a list of key/value pairs. -/
structure EBSVolume where
  tags : List (Bytes × Bytes)

/-- Look up the first tag with the given key. -/
def lookupTag (tags : List (Bytes × Bytes)) (key : Bytes) : Option Bytes :=
  (tags.find? (fun kv => decide (kv.1 = key))).map (fun kv => kv.2)

/-- Modelled from the spec: `is_cluster_volume` (section 4.5, Ownership Tag
Validator).  Reads the volume's `flocker-cluster-id` tag; absent tag means
not ours (silently); an unparseable value means not ours plus an
`INVALID_FLOCKER_CLUSTER_ID` diagnostic naming the value; a valid UUID is
compared with the cluster id and only an exact match returns true. -/
def _is_cluster_volume (cluster_id : Bytes) (ebs_volume : EBSVolume) :
    Bool × List DiagEvent :=
  match lookupTag ebs_volume.tags CLUSTER_ID_LABEL with
  | none => (false, [])
  | some value =>
    match parseUUID value with
    | none => (false, [.invalidFlockerClusterId value])
    | some u => (decide (u = cluster_id), [])

/-- C7: `_is_cluster_volume` is false without diagnostics when the tag is
absent or a valid but different UUID, false with a diagnostic naming the
value when the tag does not parse as a UUID, and true exactly when the
parsed tag value equals the cluster id. -/
theorem C7_is_cluster_volume_spec (cluster_id : Bytes) (v : EBSVolume) :
    (lookupTag v.tags CLUSTER_ID_LABEL = none →
      _is_cluster_volume cluster_id v = (false, [])) ∧
    (∀ value u, lookupTag v.tags CLUSTER_ID_LABEL = some value →
      parseUUID value = some u → u ≠ cluster_id →
      _is_cluster_volume cluster_id v = (false, [])) ∧
    (∀ value, lookupTag v.tags CLUSTER_ID_LABEL = some value →
      parseUUID value = none →
      _is_cluster_volume cluster_id v =
        (false, [.invalidFlockerClusterId value])) ∧
    ((_is_cluster_volume cluster_id v).1 = true ↔
      ∃ value, lookupTag v.tags CLUSTER_ID_LABEL = some value ∧
        parseUUID value = some cluster_id) := by
  refine ⟨?_, ?_, ?_, ?_⟩
  · intro h
    unfold _is_cluster_volume
    rw [h]
  · intro value u hl hp hne
    unfold _is_cluster_volume
    rw [hl]
    simp [hp, hne]
  · intro value hl hp
    unfold _is_cluster_volume
    rw [hl]
    simp [hp]
  · unfold _is_cluster_volume
    cases hl : lookupTag v.tags CLUSTER_ID_LABEL with
    | none => simp
    | some value =>
      cases hp : parseUUID value with
      | none => simp [hp]
      | some u => simp [hp]

/-- A sample cluster id, a canonical UUID string. -/
def exCid : Bytes := "00000000-0000-4000-8000-000000000000".data

/-- A sample foreign cluster id, a different canonical UUID string. -/
def exOtherUUID : Bytes := "11111111-1111-4111-8111-111111111111".data

/-- A sample malformed cluster tag value. -/
def exBadTag : Bytes := "An invalid flocker-cluster-id".data

theorem C7_is_cluster_volume_spec_witness :
    _is_cluster_volume exCid ⟨[]⟩ = (false, []) ∧
      _is_cluster_volume exCid ⟨[(CLUSTER_ID_LABEL, exOtherUUID)]⟩ =
        (false, []) ∧
      _is_cluster_volume exCid ⟨[(CLUSTER_ID_LABEL, exBadTag)]⟩ =
        (false, [.invalidFlockerClusterId exBadTag]) :=
  ⟨(C7_is_cluster_volume_spec exCid ⟨[]⟩).1 (by decide),
   (C7_is_cluster_volume_spec exCid
      ⟨[(CLUSTER_ID_LABEL, exOtherUUID)]⟩).2.1 exOtherUUID exOtherUUID
      (by decide) (by decide) (by decide),
   (C7_is_cluster_volume_spec exCid
      ⟨[(CLUSTER_ID_LABEL, exBadTag)]⟩).2.2.1 exBadTag (by decide) (by decide)⟩

/-- A block device visible in the host inventory: its kernel name
(for example `xvdj`) and its size in bytes. -/
structure HostDevice where
  name : Bytes
  size : Nat
deriving DecidableEq

/-- Whether an inventoried device qualifies as the newly attached one:
not in the baseline, of the `sd` or `xvd` naming family, and of the
expected size. -/
def qualifies (base : List Bytes) (expected_size : Nat) (d : HostDevice) :
    Bool :=
  decide (d.name ∉ base) &&
    (decide (d.name.take 2 = "sd".data) ||
      decide (d.name.take 3 = "xvd".data)) &&
    decide (d.size = expected_size)

/-- The first qualifying new device of one inventory observation. -/
def findQualifying (devs : List HostDevice) (base : List Bytes)
    (expected_size : Nat) : Option Bytes :=
  (devs.find? (qualifies base expected_size)).map (fun d => d.name)

/-- One poll of the fresh inventory per tick, until the remaining ticks
of the time limit are exhausted. -/
def waitLoop (inventory : Nat → List HostDevice) (base : List Bytes)
    (expected_size : Nat) : Nat → Nat → Option Bytes
  | _, 0 => none
  | t, fuel + 1 =>
    match findQualifying (inventory t) base expected_size with
    | some name => some name
    | none => waitLoop inventory base expected_size (t + 1) fuel

/-- Modelled from the spec: `wait_for_new_device` (section 4.4, New-Device
Poller).  Re-reads the host device inventory once per tick until a
qualifying new device appears, returning its `/dev` path, or until
`time_limit` ticks have elapsed, returning the explicit "nothing found"
result together with the `NO_NEW_DEVICE_IN_OS` diagnostic. -/
def _wait_for_new_device (inventory : Nat → List HostDevice)
    (base : List Bytes) (expected_size : Nat) (time_limit : Nat) :
    Option Bytes × List DiagEvent :=
  match waitLoop inventory base expected_size 0 time_limit with
  | some name => (some ("/dev/".data ++ name), [])
  | none => (none, [.noNewDeviceInOS])

theorem waitLoop_eq_none (inventory : Nat → List HostDevice)
    (base : List Bytes) (expected_size : Nat) :
    ∀ fuel t : Nat,
      (∀ i < fuel,
        findQualifying (inventory (t + i)) base expected_size = none) →
      waitLoop inventory base expected_size t fuel = none := by
  intro fuel
  induction fuel with
  | zero => intro t _; rfl
  | succ n ih =>
    intro t h
    unfold waitLoop
    have h0 : findQualifying (inventory t) base expected_size = none := by
      have h0 := h 0 (Nat.succ_pos n)
      simpa using h0
    rw [h0]
    apply ih
    intro i hi
    have hstep := h (i + 1) (Nat.succ_lt_succ hi)
    have harr : t + (i + 1) = t + 1 + i := by omega
    rw [harr] at hstep
    exact hstep

theorem waitLoop_congr (inv₁ inv₂ : Nat → List HostDevice)
    (base : List Bytes) (expected_size : Nat) :
    ∀ fuel t : Nat, (∀ i < fuel, inv₁ (t + i) = inv₂ (t + i)) →
      waitLoop inv₁ base expected_size t fuel =
        waitLoop inv₂ base expected_size t fuel := by
  intro fuel
  induction fuel with
  | zero => intro t _; rfl
  | succ n ih =>
    intro t h
    unfold waitLoop
    have h0 : inv₁ t = inv₂ t := by
      have h0 := h 0 (Nat.succ_pos n)
      simpa using h0
    rw [h0]
    have hrec : waitLoop inv₁ base expected_size (t + 1) n =
        waitLoop inv₂ base expected_size (t + 1) n := by
      apply ih
      intro i hi
      have hstep := h (i + 1) (Nat.succ_lt_succ hi)
      have harr : t + (i + 1) = t + 1 + i := by omega
      rw [harr] at hstep
      exact hstep
    rw [hrec]

theorem waitLoop_found (inventory : Nat → List HostDevice)
    (base : List Bytes) (expected_size : Nat) (t fuel : Nat) (found : Bytes)
    (h : findQualifying (inventory t) base expected_size = some found) :
    waitLoop inventory base expected_size t (fuel + 1) = some found := by
  unfold waitLoop
  rw [h]

theorem findQualifying_of_unique (devs : List HostDevice)
    (base : List Bytes) (expected_size : Nat) (nd : HostDevice)
    (hmem : nd ∈ devs) (hq : qualifies base expected_size nd = true)
    (hothers : ∀ d ∈ devs, d ≠ nd → d.name ∈ base) :
    findQualifying devs base expected_size = some nd.name := by
  unfold findQualifying
  cases hf : devs.find? (qualifies base expected_size) with
  | none =>
    exact absurd hq (by simpa using List.find?_eq_none.mp hf nd hmem)
  | some d =>
    have hdq := List.find?_some hf
    have hdm := List.mem_of_find?_eq_some hf
    by_cases hdn : d = nd
    · rw [hdn]
      rfl
    · exfalso
      have hbase := hothers d hdm hdn
      have hnot : d.name ∉ base := by
        simp only [qualifies, Bool.and_eq_true, decide_eq_true_eq] at hdq
        exact hdq.1.1
      exact hnot hbase

theorem findQualifying_none_of_stale (devs : List HostDevice)
    (base : List Bytes) (expected_size : Nat)
    (h : ∀ d ∈ devs, d.name ∈ base) :
    findQualifying devs base expected_size = none := by
  unfold findQualifying
  have hn : devs.find? (qualifies base expected_size) = none := by
    apply List.find?_eq_none.mpr
    intro d hd hq
    have hnot : d.name ∉ base := by
      simp only [qualifies, Bool.and_eq_true, decide_eq_true_eq] at hq
      exact hq.1.1
    exact hnot (h d hd)
  rw [hn]
  rfl

/-- C8: when the time limit elapses (in particular with a time limit of 0)
without a qualifying new device appearing, `_wait_for_new_device`
terminates with the explicit "nothing found" result rather than an error
and emits the `NO_NEW_DEVICE_IN_OS` diagnostic; its result never depends
on inventory observations after the time limit has elapsed. -/
theorem C8_wait_for_new_device_timeout :
    (∀ (inventory : Nat → List HostDevice) (base : List Bytes)
        (expected_size : Nat),
      _wait_for_new_device inventory base expected_size 0 =
        (none, [DiagEvent.noNewDeviceInOS])) ∧
    (∀ (inventory : Nat → List HostDevice) (base : List Bytes)
        (expected_size time_limit : Nat),
      (∀ t < time_limit,
        findQualifying (inventory t) base expected_size = none) →
      _wait_for_new_device inventory base expected_size time_limit =
        (none, [DiagEvent.noNewDeviceInOS])) ∧
    (∀ (inv₁ inv₂ : Nat → List HostDevice) (base : List Bytes)
        (expected_size time_limit : Nat),
      (∀ t < time_limit, inv₁ t = inv₂ t) →
      _wait_for_new_device inv₁ base expected_size time_limit =
        _wait_for_new_device inv₂ base expected_size time_limit) := by
  refine ⟨fun inventory base s => rfl, ?_, ?_⟩
  · intro inventory base s lim h
    unfold _wait_for_new_device
    rw [waitLoop_eq_none inventory base s lim 0 ?_]
    intro i hi
    simpa using h i hi
  · intro inv₁ inv₂ base s lim h
    unfold _wait_for_new_device
    rw [waitLoop_congr inv₁ inv₂ base s lim 0 ?_]
    intro i hi
    simpa using h i hi

theorem C8_wait_for_new_device_timeout_witness :
    _wait_for_new_device (fun _ => []) [] 1 0 =
        (none, [DiagEvent.noNewDeviceInOS]) ∧
      _wait_for_new_device (fun _ => []) [] 1 3 =
        (none, [DiagEvent.noNewDeviceInOS]) :=
  ⟨C8_wait_for_new_device_timeout.1 (fun _ => []) [] 1,
   C8_wait_for_new_device_timeout.2.1 (fun _ => []) [] 1 3
     (fun _t _ht => rfl)⟩

/-- A cloud-side volume record (spec section 3). -/
structure BlockDeviceVolume where
  dataset_id : Bytes
  blockdevice_id : Bytes
  size : Nat
  attached_to : Option Bytes
deriving DecidableEq

/-- The terminal states of one Attachment Orchestrator invocation
(spec section 4.6). -/
inductive FinalState where
  | attached
  | rolledBack
  | failed
deriving DecidableEq

instance {ε α : Type} [DecidableEq ε] [DecidableEq α] :
    DecidableEq (Except ε α) := fun x y =>
  match x, y with
  | .ok a, .ok b =>
    if h : a = b then .isTrue (congrArg Except.ok h)
    else .isFalse (fun hc => h (Except.ok.inj hc))
  | .error a, .error b =>
    if h : a = b then .isTrue (congrArg Except.error h)
    else .isFalse (fun hc => h (Except.error.inj hc))
  | .ok _, .error _ => .isFalse (fun hc => Except.noConfusion hc)
  | .error _, .ok _ => .isFalse (fun hc => Except.noConfusion hc)

/-- The observable outcome of one Attachment Orchestrator invocation:
the returned device path or error condition, the number of invocations
of the abstract detach capability, the terminal state of the state
machine, and the diagnostics emitted along the way. -/
structure OrchOutcome where
  result : Except EBSError Bytes
  detachCalls : Nat
  finalState : FinalState
  diags : List DiagEvent
deriving DecidableEq

/-- Modelled from the spec: `_attach_volume_and_wait_for_device`
(section 4.6, Attachment Orchestrator).  The abstract attach capability's
behaviour for this call is `attachResult`; a condition it raises is
propagated unchanged and nothing else happens.  On attach success the
expected kernel name is computed from the requested `device`, the poller
watches the inventory trace against the pre-attach `blockdevices`
baseline, and the discovered device is verified: a match commits to
`Attached` and returns the path; "nothing found" fails with
`DeviceNeverAppeared` leaving the attach in place; a mismatch invokes
detach once and raises `AttachedUnexpectedDevice` with the requested and
discovered paths. -/
def _attach_volume_and_wait_for_device (volume : BlockDeviceVolume)
    (_attach_to : Bytes) (attachResult : Except Bytes Unit) (device : Bytes)
    (blockdevices : List Bytes) (inventory : Nat → List HostDevice)
    (time_limit : Nat) : OrchOutcome :=
  match attachResult with
  | .error e => ⟨.error (.cloudError e), 0, .failed, []⟩
  | .ok _ =>
    match _expected_device device with
    | .error err => ⟨.error err, 0, .failed, []⟩
    | .ok expected =>
      match _wait_for_new_device inventory blockdevices volume.size
          time_limit with
      | (none, ds) => ⟨.error .deviceNeverAppeared, 0, .failed, ds⟩
      | (some discovered, ds) =>
        if discovered = expected then
          ⟨.ok discovered, 0, .attached, ds⟩
        else
          ⟨.error (.attachedUnexpectedDevice device (some discovered)), 1,
            .rolledBack, ds⟩

/-- C2: when the attach call succeeds and exactly one new device appears,
of matching size and bearing exactly the expected translated name, the
Orchestrator returns the discovered device path and ends in the
`Attached` state without calling detach. -/
theorem C2_attach_success (volume : BlockDeviceVolume) (attach_to s : Bytes)
    (base : List Bytes) (devs : List HostDevice) (nd : HostDevice)
    (inventory : Nat → List HostDevice) (time_limit : Nat)
    (hs : s ≠ []) (hall : ∀ c ∈ s, isLowerAlpha c = true)
    (hlim : 0 < time_limit) (hinv : ∀ t, inventory t = devs)
    (hmem : nd ∈ devs) (hname : nd.name = "xvd".data ++ s)
    (hsize : nd.size = volume.size) (hnew : nd.name ∉ base)
    (hothers : ∀ d ∈ devs, d ≠ nd → d.name ∈ base) :
    _attach_volume_and_wait_for_device volume attach_to (.ok ())
        ("/dev/sd".data ++ s) base inventory time_limit =
      ⟨.ok ("/dev/xvd".data ++ s), 0, .attached, []⟩ := by
  have hexp := expected_device_accepts s hs hall
  have htake3 : ("xvd".data ++ s).take 3 = "xvd".data := by simp
  have hnew2 : ("xvd".data ++ s) ∉ base := hname ▸ hnew
  have hq : qualifies base volume.size nd = true := by
    unfold qualifies
    rw [hname, hsize, Bool.and_eq_true, Bool.and_eq_true, Bool.or_eq_true]
    exact ⟨⟨decide_eq_true hnew2, Or.inr (decide_eq_true htake3)⟩,
      decide_eq_true rfl⟩
  have hfq : findQualifying devs base volume.size =
      some ("xvd".data ++ s) := by
    have h := findQualifying_of_unique devs base volume.size nd hmem hq
      hothers
    rw [hname] at h
    exact h
  obtain ⟨k, rfl⟩ : ∃ k, time_limit = k + 1 :=
    ⟨time_limit - 1, by omega⟩
  have hwl : waitLoop inventory base volume.size 0 (k + 1) =
      some ("xvd".data ++ s) := by
    apply waitLoop_found
    rw [hinv 0]
    exact hfq
  have hcat : "/dev/".data ++ ("xvd".data ++ s) = "/dev/xvd".data ++ s := by
    rw [← List.append_assoc]
    rfl
  have hw : _wait_for_new_device inventory base volume.size (k + 1) =
      (some ("/dev/xvd".data ++ s), []) := by
    unfold _wait_for_new_device
    rw [hwl]
    show (some ("/dev/".data ++ ("xvd".data ++ s)), ([] : List DiagEvent)) =
      (some ("/dev/xvd".data ++ s), [])
    rw [hcat]
  unfold _attach_volume_and_wait_for_device
  simp only [hexp, hw]
  simp

/-- A sample volume for concrete runs of the Orchestrator. -/
def exVolume : BlockDeviceVolume :=
  ⟨"dataset".data, "opaque storage backend id".data, 1073741824, none⟩

/-- A sample compute-instance identifier. -/
def exComputeId : Bytes := "opaque compute backend id".data

/-- Scenario A inventory: the baseline boot device plus the expected
`xvdj` of matching size. -/
def exDevsA : List HostDevice :=
  [⟨"sda".data, 7⟩, ⟨"xvdj".data, 1073741824⟩]

theorem C2_attach_success_witness :
    _attach_volume_and_wait_for_device exVolume exComputeId (.ok ())
        ("/dev/sd".data ++ "j".data) ["sda".data] (fun _ => exDevsA) 60 =
      ⟨.ok ("/dev/xvd".data ++ "j".data), 0, .attached, []⟩ :=
  C2_attach_success exVolume exComputeId "j".data ["sda".data] exDevsA
    ⟨"xvdj".data, 1073741824⟩ (fun _ => exDevsA) 60 (by decide) (by decide)
    (by decide) (fun _t => rfl) (by decide) (by decide) (by decide)
    (by decide) (by decide)

/-- C1: when the attach call succeeds but the single new device that
appears does not bear the expected translated name, the Orchestrator
invokes the detach capability exactly once and raises
`AttachedUnexpectedDevice` carrying the requested path and the discovered
path; the wrong device is never accepted. -/
theorem C1_unexpected_device (volume : BlockDeviceVolume)
    (attach_to s : Bytes) (base : List Bytes) (devs : List HostDevice)
    (wd : HostDevice) (inventory : Nat → List HostDevice) (time_limit : Nat)
    (hs : s ≠ []) (hall : ∀ c ∈ s, isLowerAlpha c = true)
    (hlim : 0 < time_limit) (hinv : ∀ t, inventory t = devs)
    (hmem : wd ∈ devs)
    (hfam : wd.name.take 2 = "sd".data ∨ wd.name.take 3 = "xvd".data)
    (hsize : wd.size = volume.size) (hnew : wd.name ∉ base)
    (hothers : ∀ d ∈ devs, d ≠ wd → d.name ∈ base)
    (hmismatch : "/dev/".data ++ wd.name ≠ "/dev/xvd".data ++ s) :
    _attach_volume_and_wait_for_device volume attach_to (.ok ())
        ("/dev/sd".data ++ s) base inventory time_limit =
      ⟨.error (.attachedUnexpectedDevice ("/dev/sd".data ++ s)
          (some ("/dev/".data ++ wd.name))), 1, .rolledBack, []⟩ := by
  have hexp := expected_device_accepts s hs hall
  have hq : qualifies base volume.size wd = true := by
    unfold qualifies
    rw [hsize, Bool.and_eq_true, Bool.and_eq_true, Bool.or_eq_true]
    refine ⟨⟨decide_eq_true hnew, ?_⟩, decide_eq_true rfl⟩
    rcases hfam with hf | hf
    · exact Or.inl (decide_eq_true hf)
    · exact Or.inr (decide_eq_true hf)
  have hfq : findQualifying devs base volume.size = some wd.name :=
    findQualifying_of_unique devs base volume.size wd hmem hq hothers
  obtain ⟨k, rfl⟩ : ∃ k, time_limit = k + 1 :=
    ⟨time_limit - 1, by omega⟩
  have hwl : waitLoop inventory base volume.size 0 (k + 1) =
      some wd.name := by
    apply waitLoop_found
    rw [hinv 0]
    exact hfq
  have hw : _wait_for_new_device inventory base volume.size (k + 1) =
      (some ("/dev/".data ++ wd.name), []) := by
    unfold _wait_for_new_device
    rw [hwl]
  unfold _attach_volume_and_wait_for_device
  simp only [hexp, hw]
  rw [if_neg hmismatch]

/-- Scenario B inventory: the baseline boot device plus a matching-size
device in the wrong slot, `xvdk`. -/
def exDevsB : List HostDevice :=
  [⟨"sda".data, 7⟩, ⟨"xvdk".data, 1073741824⟩]

theorem C1_unexpected_device_witness :
    _attach_volume_and_wait_for_device exVolume exComputeId (.ok ())
        ("/dev/sd".data ++ "j".data) ["sda".data] (fun _ => exDevsB) 60 =
      ⟨.error (.attachedUnexpectedDevice ("/dev/sd".data ++ "j".data)
          (some ("/dev/".data ++ "xvdk".data))), 1, .rolledBack, []⟩ :=
  C1_unexpected_device exVolume exComputeId "j".data ["sda".data] exDevsB
    ⟨"xvdk".data, 1073741824⟩ (fun _ => exDevsB) 60 (by decide) (by decide)
    (by decide) (fun _t => rfl) (by decide) (by decide) (by decide)
    (by decide) (by decide) (by decide)

/-- C3: when the attach call succeeds cloud-side but no qualifying device
appears in the inventory within the time limit (whatever unrelated or
wrong-size devices may come and go), the Orchestrator fails with
`DeviceNeverAppeared` and never calls the detach capability. -/
theorem C3_device_never_appeared (volume : BlockDeviceVolume)
    (attach_to s : Bytes) (base : List Bytes)
    (inventory : Nat → List HostDevice) (time_limit : Nat)
    (hs : s ≠ []) (hall : ∀ c ∈ s, isLowerAlpha c = true)
    (hnone : ∀ t < time_limit,
      findQualifying (inventory t) base volume.size = none) :
    _attach_volume_and_wait_for_device volume attach_to (.ok ())
        ("/dev/sd".data ++ s) base inventory time_limit =
      ⟨.error .deviceNeverAppeared, 0, .failed,
        [DiagEvent.noNewDeviceInOS]⟩ := by
  have hexp := expected_device_accepts s hs hall
  have hw : _wait_for_new_device inventory base volume.size time_limit =
      (none, [DiagEvent.noNewDeviceInOS]) := by
    unfold _wait_for_new_device
    rw [waitLoop_eq_none inventory base volume.size time_limit 0 ?_]
    intro i hi
    simpa using hnone i hi
  unfold _attach_volume_and_wait_for_device
  simp only [hexp, hw]

/-- Scenario C inventory: the baseline boot device plus an unrelated new
device whose size does not match the attached volume, so that no
qualifying device ever appears. -/
def exDevsC : List HostDevice :=
  [⟨"sda".data, 7⟩, ⟨"xvdj".data, 999⟩]

theorem C3_device_never_appeared_witness :
    _attach_volume_and_wait_for_device exVolume exComputeId (.ok ())
        ("/dev/sd".data ++ "j".data) ["sda".data] (fun _ => exDevsC) 60 =
      ⟨.error .deviceNeverAppeared, 0, .failed,
        [DiagEvent.noNewDeviceInOS]⟩ :=
  C3_device_never_appeared exVolume exComputeId "j".data ["sda".data]
    (fun _ => exDevsC) 60 (by decide) (by decide)
    (fun _t _ht => by
      show findQualifying exDevsC ["sda".data] exVolume.size = none
      decide)

/-- C9: a condition raised by the attach capability that is not part of
the contract's taxonomy is propagated to the caller carrying its exact
payload, with no detach call, no diagnostics and no further steps. -/
theorem C9_attach_exception_passthrough (volume : BlockDeviceVolume)
    (attach_to payload device : Bytes) (base : List Bytes)
    (inventory : Nat → List HostDevice) (time_limit : Nat) :
    _attach_volume_and_wait_for_device volume attach_to (.error payload)
        device base inventory time_limit =
      ⟨.error (.cloudError payload), 0, .failed, []⟩ := rfl

/-- A dynamically-typed Python value handed to an exception constructor:
a `FilePath` wrapping a path, `None`, or any other object. -/
inductive PyVal where
  | filePath (path : Bytes)
  | pyNone
  | other (tag : Nat)
deriving DecidableEq

/-- Whether a dynamically-typed value is a `FilePath` instance. -/
def isFilePathVal : PyVal → Bool
  | .filePath _ => true
  | _ => false

/-- The `AttachedUnexpectedDevice` condition value: the requested device
path and the optionally-identified discovered device path. -/
structure AttachedUnexpectedDevice where
  requested : Bytes
  discovered : Option Bytes
deriving DecidableEq

/-- The result of running the exception class constructor: a constructed
value, or the `TypeError` its argument validation raises. -/
inductive InitResult where
  | ok (v : AttachedUnexpectedDevice)
  | typeError
deriving DecidableEq

/-- Modelled from the spec: the `AttachedUnexpectedDevice` constructor
(the class carrying a rollback's requested and discovered paths, spec
sections 4.6 and 7; argument validation as exercised by its tests).
`requested` must be a `FilePath` instance and `discovered` must be a
`FilePath` instance or `None`; anything else raises `TypeError`. -/
def mkAttachedUnexpectedDevice : PyVal → PyVal → InitResult
  | .filePath r, .filePath d => .ok ⟨r, some d⟩
  | .filePath r, .pyNone => .ok ⟨r, none⟩
  | _, _ => .typeError

/-- C10: constructing an `AttachedUnexpectedDevice` raises `TypeError`
whenever `requested` is not a `FilePath` instance or `discovered` is
neither `None` nor a `FilePath` instance, and accepts exactly the
(`FilePath`, `FilePath`-or-`None`) argument pairs. -/
theorem C10_attached_unexpected_device_types :
    (∀ rv dv : PyVal, isFilePathVal rv = false →
      mkAttachedUnexpectedDevice rv dv = .typeError) ∧
    (∀ rv dv : PyVal, isFilePathVal dv = false → dv ≠ .pyNone →
      mkAttachedUnexpectedDevice rv dv = .typeError) ∧
    (∀ r d : Bytes,
      mkAttachedUnexpectedDevice (.filePath r) (.filePath d) =
          .ok ⟨r, some d⟩ ∧
        mkAttachedUnexpectedDevice (.filePath r) .pyNone = .ok ⟨r, none⟩) := by
  refine ⟨?_, ?_, fun r d => ⟨rfl, rfl⟩⟩
  · intro rv dv hr
    cases rv with
    | filePath p => exact absurd hr (by simp [isFilePathVal])
    | pyNone => cases dv <;> rfl
    | other t => cases dv <;> rfl
  · intro rv dv hd hne
    cases dv with
    | filePath p => exact absurd hd (by simp [isFilePathVal])
    | pyNone => exact absurd rfl hne
    | other t => cases rv <;> rfl

theorem C10_attached_unexpected_device_types_witness :
    mkAttachedUnexpectedDevice (.other 0) (.filePath "/".data) =
        .typeError ∧
      mkAttachedUnexpectedDevice (.filePath "/".data) (.other 0) =
        .typeError ∧
      mkAttachedUnexpectedDevice (.filePath "/dev/sda".data)
          (.filePath "/dev/sdb".data) =
        .ok ⟨"/dev/sda".data, some "/dev/sdb".data⟩ :=
  ⟨C10_attached_unexpected_device_types.1 (.other 0) (.filePath "/".data)
     (by decide),
   C10_attached_unexpected_device_types.2.1 (.filePath "/".data) (.other 0)
     (by decide) (by decide),
   (C10_attached_unexpected_device_types.2.2 "/dev/sda".data
     "/dev/sdb".data).1⟩
